import Mathlib

/-!
Verification of the tax-planner application's computation layer.

The repository is a Next.js frontend (under `src/frontend` and the unnamed
source parts) talking to a FastAPI backend that is not among the shown
sources.  Frontend computations (safe-harbor figures, 401(k) slider math,
refund/owed presentation, mock optimizer data) are embedded directly from
the TypeScript source, with JavaScript numbers modelled as exact rationals.
Backend operations that only appear here through their HTTP interface and
callers (mark-paid validation, projection effective rate and refund field,
RSU vesting summary) are modelled from the specification and flagged as
such in their doc comments.
-/

/-! ### Quarterly estimates
Record shape from the API client (src/unnamed/part_000, `QuarterlyEstimate`);
dates kept as strings, amounts as rationals. -/

structure QuarterlyEstimate where
  quarter : ℤ
  due_date : String
  federal_amount : ℚ
  california_amount : ℚ
  oklahoma_amount : ℚ
  total_amount : ℚ
  paid : Bool
  paid_amount : Option ℚ

/-- The demonstration estimates hard-coded in
src/frontend/src/app/quarterly/page.tsx lines 27-65. -/
def mockEstimates : List QuarterlyEstimate :=
  [⟨1, "2025-04-15", 12500, 5300, 1100, 18900, true, some 18900⟩,
   ⟨2, "2025-06-15", 12500, 5300, 1100, 18900, false, none⟩,
   ⟨3, "2025-09-15", 12500, 5300, 1100, 18900, false, none⟩,
   ⟨4, "2026-01-15", 12500, 5300, 1100, 18900, false, none⟩]

/-- quarterly/page.tsx line 73: `estimates.reduce((sum, e) => sum + e.total_amount, 0)`. -/
def totalAnnual (estimates : List QuarterlyEstimate) : ℚ :=
  (estimates.map fun e => e.total_amount).sum

/-- quarterly/page.tsx line 179: the figure displayed as the 90% current-year
safe-harbor requirement is `totalAnnual * 0.9 * 4`. -/
def ninetyPercentRequired (estimates : List QuarterlyEstimate) : ℚ :=
  totalAnnual estimates * (9 / 10) * 4

/-- quarterly/page.tsx line 169: the prior-year liability the page uses. -/
def priorYearLiability : ℚ := 165000

/-- quarterly/page.tsx line 165: the figure displayed as the 110% prior-year
safe-harbor requirement is `165000 * 1.1`. -/
def hundredTenPercentRequired : ℚ := priorYearLiability * (11 / 10)

/-! ### 401(k) contribution slider
src/frontend/src/components/ContributionSlider.tsx. -/

/-- ContributionSlider.tsx line 42:
`catchUpEligible ? maxContribution + 7500 : maxContribution`. -/
def effectiveMax (maxContribution : ℚ) (catchUpEligible : Bool) : ℚ :=
  if catchUpEligible then maxContribution + 7500 else maxContribution

/-- 401k/page.tsx line 44: `formData.age >= 50`. -/
def catchUpEligible (age : ℤ) : Bool :=
  decide (50 ≤ age)

/-- 401k/page.tsx line 45: `catchUpEligible ? 31000 : 23500`. -/
def page401kEffectiveMax (age : ℤ) : ℚ :=
  if catchUpEligible age then 31000 else 23500

/-- ContributionSlider.tsx lines 63-67:
`Math.min(ytdContribution + (annualSalary / 26) * (percent / 100) * remainingPayPeriods, effectiveMax)`. -/
def projectedYearEnd (annualSalary ytdContribution percent : ℚ)
    (remainingPayPeriods : ℕ) (effMax : ℚ) : ℚ :=
  min (ytdContribution + annualSalary / 26 * (percent / 100) * remainingPayPeriods) effMax

/-- ContributionSlider.tsx lines 44-60: the chart series.  Point `i` of the
loop records `Math.min(projected, effectiveMax)` where `projected` starts at
the YTD contribution and grows by
`(annualSalary / 26 * contributionPercent) / 100` each pay period; with exact
arithmetic the value pushed at index `i` is the closed form below. -/
def calculateProjection (annualSalary percent ytdContribution : ℚ)
    (remainingPayPeriods : ℕ) (effMax : ℚ) : List ℚ :=
  (List.range (remainingPayPeriods + 1)).map fun i : ℕ =>
    min (ytdContribution + annualSalary / 26 * percent / 100 * (i : ℚ)) effMax

/-- ContributionSlider.tsx line 69: `projectedYearEnd * 0.32`, the comment in
the source reads "Approximate marginal rate". -/
def taxSavings (projectedYearEnd : ℚ) : ℚ :=
  projectedYearEnd * (32 / 100)

/-- The specification's formula (section 4.4): tax savings = projected
year-end contribution × assumed marginal rate, the rate being a configuration
input.  Written from the spec's words, to be compared with the source's
`taxSavings`. -/
def taxSavingsSpec (projectedYearEnd assumedMarginalRate : ℚ) : ℚ :=
  projectedYearEnd * assumedMarginalRate

/-! ### 401(k) optimizer result
Record shape from src/unnamed/part_000 (`Optimizer401kResult`); the mock
result and form defaults from src/frontend/src/app/401k/page.tsx. -/

structure Optimizer401kResult where
  current_contribution_percent : ℚ
  recommended_percent : ℚ
  remaining_contribution_room : ℚ
  max_contribution : ℚ
  projected_year_end_contribution : ℚ
  tax_savings : ℚ

/-- 401k/page.tsx lines 34-41, with the form's default
`current_contribution_percent = 6`. -/
def mockOptimization : Optimizer401kResult :=
  { current_contribution_percent := 6
    recommended_percent := 13.5
    remaining_contribution_room := 20788.45
    max_contribution := 23500
    projected_year_end_contribution := 23500
    tax_savings := 7520 }

/-- 401k/page.tsx line 16: default annual salary. -/
def formAnnualSalary : ℚ := 450000

/-- 401k/page.tsx line 18: default YTD contribution. -/
def formYtdContribution : ℚ := 2711.55

/-- 401k/page.tsx line 19: default remaining pay periods. -/
def formRemainingPayPeriods : ℕ := 22

/-! ### Mark-paid operation (spec-modelled backend) -/

/-- Error taxonomy entry from the spec (section 7). -/
inductive MarkPaidError where
  | InvalidInput

/-- Modelled from the spec: the backend handler for
`POST /api/quarterly/mark-paid` is absent from the shown sources (only its
frontend caller `handleMarkPaid` in src/unnamed/part_004 appears).  Spec 4.5:
`mark_paid(quarter, amount)` validates `quarter ∈ {1,2,3,4}` and
`amount ≥ 0`, else fails with `InvalidInput`; on success it echoes the
record with the caller-owned paid state set. -/
def mark_paid (quarter : ℤ) (amount : ℚ) (e : QuarterlyEstimate) :
    Except MarkPaidError QuarterlyEstimate :=
  if (quarter = 1 ∨ quarter = 2 ∨ quarter = 3 ∨ quarter = 4) ∧ 0 ≤ amount then
    Except.ok { e with paid := true, paid_amount := some amount }
  else
    Except.error MarkPaidError.InvalidInput

/-! ### Projection fields (spec-modelled backend) and their presentation -/

/-- Modelled from the spec: the backend projection endpoint
(`GET /api/tax/projection`) is absent from the shown sources.  Spec 4.3:
`effective_rate = total_tax / gross_income` (0 if gross_income = 0, never
divide by zero). -/
def effective_rate (total_tax gross_income : ℚ) : ℚ :=
  if gross_income = 0 then 0 else total_tax / gross_income

/-- Modelled from the spec: same missing backend endpoint.  Spec 4.3:
`refund_or_owed = withheld_ytd − total_tax`. -/
def refund_or_owed (withheld_ytd total_tax : ℚ) : ℚ :=
  withheld_ytd - total_tax

/-- src/unnamed/part_003 (Dashboard) lines 86-92: the dashboard card titled
by `refund_or_owed >= 0 ? "Projected Refund" : "Additional Owed"` with value
`Math.abs(refund_or_owed)`. -/
def dashboardRefundCard (refundOrOwed : ℚ) : String × ℚ :=
  (if 0 ≤ refundOrOwed then "Projected Refund" else "Additional Owed", |refundOrOwed|)

/-- src/frontend/src/components/TaxProjectionChart.tsx lines 117-129: the
comparison tab shows a projected refund of `withheld_ytd − projected_liability`
when `withheld_ytd > projected_liability`, else additional tax owed of
`projected_liability − withheld_ytd`. -/
def chartRefundOrOwed (withheld_ytd projected_liability : ℚ) : String × ℚ :=
  if projected_liability < withheld_ytd then
    ("Projected Refund", withheld_ytd - projected_liability)
  else
    ("Additional Tax Owed", projected_liability - withheld_ytd)

/-! ### RSU vesting summary (spec-modelled backend) -/

/-- Record shape from the API client (src/unnamed/part_000,
`RSUVestingEvent`); dates modelled as integers so they compare. -/
structure RSUVestingEvent where
  id : String
  grant_id : String
  symbol : String
  grant_date : ℤ
  vesting_date : ℤ
  shares_vesting : ℤ
  fmv_at_vest : ℚ
  total_value : ℚ

/-- Record shape from the API client (src/unnamed/part_000,
`RSUVestingScheduleSummary`). -/
structure RSUVestingScheduleSummary where
  total_grants : ℕ
  total_shares_granted : ℤ
  total_shares_vested : ℤ
  total_shares_pending : ℤ
  upcoming_vests : List RSUVestingEvent
  past_vests : List RSUVestingEvent

/-- Modelled from the spec: the backend summary endpoint
(`GET /api/rsu-vesting/summary`) is absent from the shown sources.  Spec 4.6:
events with `vesting_date < now` are past, `vesting_date ≥ now` upcoming
(boundary inclusive on upcoming); granted shares sum over all events, vested
over past events, pending = granted − vested; grants are counted as distinct
grant ids.  The spec's ordering of the two event lists is irrelevant to the
share totals and is left out of the model. -/
def summarize (events : List RSUVestingEvent) (now : ℤ) : RSUVestingScheduleSummary :=
  let upcoming := events.filter fun e => decide (now ≤ e.vesting_date)
  let past := events.filter fun e => decide (e.vesting_date < now)
  let granted := (events.map fun e => e.shares_vesting).sum
  let vested := (past.map fun e => e.shares_vesting).sum
  { total_grants := (events.map fun e => e.grant_id).eraseDups.length
    total_shares_granted := granted
    total_shares_vested := vested
    total_shares_pending := granted - vested
    upcoming_vests := upcoming
    past_vests := past }

/-! ## Theorems -/

/-- C1: the 90% current-year safe-harbor figure displayed by the quarterly
page is `totalAnnual * 0.9 * 4`, four times the 90% of the annual projected
liability required by the spec and by the page's own caption ("pay at least
90% of your current year tax liability"); at the page's own mock estimates
(annual total 75600) the displayed figure is 272160 instead of 68040.  The
110% prior-year figure does match `1.1 × 165000`. -/
theorem safeHarbor90_times4_bug :
    totalAnnual mockEstimates = 75600 ∧
    ninetyPercentRequired mockEstimates = 272160 ∧
    (9 / 10 : ℚ) * totalAnnual mockEstimates = 68040 ∧
    ninetyPercentRequired mockEstimates ≠ (9 / 10 : ℚ) * totalAnnual mockEstimates ∧
    hundredTenPercentRequired = (11 / 10 : ℚ) * 165000 := by
  norm_num [ninetyPercentRequired, totalAnnual, mockEstimates,
    hundredTenPercentRequired, priorYearLiability]

/-- C2: the statutory 401(k) maximum is the base limit plus exactly 7500 when
age ≥ 50 and the base limit alone otherwise; for the 2025 constants of
401k/page.tsx this is 23500 without catch-up and 31000 with it. -/
theorem maxContribution_catch_up (age : ℤ) (base : ℚ) :
    effectiveMax base (catchUpEligible age)
        = base + (if 50 ≤ age then (7500 : ℚ) else 0) ∧
    page401kEffectiveMax age = 23500 + (if 50 ≤ age then (7500 : ℚ) else 0) := by
  by_cases h : 50 ≤ age
  · simp [effectiveMax, catchUpEligible, page401kEffectiveMax, h]
    norm_num
  · simp [effectiveMax, catchUpEligible, page401kEffectiveMax, h]

/-- C3: the projected year-end contribution equals
`min(max_contribution, ytd + (salary / 26) × percent/100 × remaining)` and in
particular never exceeds the statutory maximum. -/
theorem projectedYearEnd_spec (annualSalary ytd percent : ℚ) (remaining : ℕ)
    (base : ℚ) (catchUp : Bool) :
    projectedYearEnd annualSalary ytd percent remaining (effectiveMax base catchUp)
        = min (effectiveMax base catchUp)
            (ytd + annualSalary / 26 * (percent / 100) * remaining) ∧
    projectedYearEnd annualSalary ytd percent remaining (effectiveMax base catchUp)
        ≤ effectiveMax base catchUp := by
  unfold projectedYearEnd
  exact ⟨min_comm _ _, min_le_right _ _⟩

/-- C5 counterexample: the slider's estimated tax savings is not
`projected × assumed_marginal_rate` for a caller-supplied rate — the rate is
the constant 0.32 baked into ContributionSlider.tsx; with a supplied marginal
rate of 30% the code's figure (3200 on a 10000 projection) differs from the
claimed formula (3000). -/
theorem taxSavings_rate_not_configurable :
    ¬ ∀ rate : ℚ, taxSavings 10000 = taxSavingsSpec 10000 rate := by
  intro h
  have h30 := h (30 / 100)
  norm_num [taxSavings, taxSavingsSpec] at h30

/-- C5 amended: the estimated tax savings equals the spec's formula
`projected × rate` only at the hardcoded rate 0.32 (the source comment reads
"Approximate marginal rate" and the UI caption "At 32% marginal rate"); for
any other rate and nonzero projection the code's figure differs. -/
theorem taxSavings_fixed_rate (p rate : ℚ) :
    taxSavings p = taxSavingsSpec p (32 / 100) ∧
    (rate ≠ 32 / 100 → p ≠ 0 → taxSavings p ≠ taxSavingsSpec p rate) := by
  constructor
  · rfl
  · intro hr hp heq
    unfold taxSavings taxSavingsSpec at heq
    exact hr (mul_left_cancel₀ hp heq).symm

/-- C5 witness: the amended theorem applied at projection 10000 and rate 30%. -/
theorem taxSavings_fixed_rate_witness :
    (30 / 100 : ℚ) ≠ 32 / 100 ∧ (10000 : ℚ) ≠ 0 ∧
    taxSavings 10000 ≠ taxSavingsSpec 10000 (30 / 100) :=
  ⟨by norm_num, by norm_num,
    (taxSavings_fixed_rate 10000 (30 / 100)).2 (by norm_num) (by norm_num)⟩

/-- C4 counterexample: the optimizer result shown by 401k/page.tsx recommends
13.5%, which is not the minimal percent whose projected year-end contribution
stays within the 23500 cap — the strictly smaller percent 6 yields the very
same (capped) projected year-end contribution of 23500. -/
theorem recommendedPercent_not_minimal :
    mockOptimization.recommended_percent = 13.5 ∧
    projectedYearEnd formAnnualSalary formYtdContribution
        mockOptimization.recommended_percent formRemainingPayPeriods
        mockOptimization.max_contribution = 23500 ∧
    projectedYearEnd formAnnualSalary formYtdContribution 6 formRemainingPayPeriods
        mockOptimization.max_contribution = 23500 ∧
    (6 : ℚ) < mockOptimization.recommended_percent := by
  norm_num [mockOptimization, projectedYearEnd, formAnnualSalary,
    formYtdContribution, formRemainingPayPeriods, min_def]

/-- C4 amended: for age 35, salary 450000, YTD contribution 2711.55 and 22
remaining pay periods the mock result has max_contribution 23500 and
remaining room 20788.45 = 23500 − 2711.55, and its recommended percent 13.5
does attain the maximal admissible projected year-end contribution
23500 ≤ cap; but it is not the minimal such percent: a percent attains the
cap exactly when it is at least 5404997/990000 (≈ 5.46). -/
theorem recommendedPercent_reaches_cap (p : ℚ) :
    mockOptimization.max_contribution = 23500 ∧
    mockOptimization.remaining_contribution_room
        = mockOptimization.max_contribution - formYtdContribution ∧
    projectedYearEnd formAnnualSalary formYtdContribution
        mockOptimization.recommended_percent formRemainingPayPeriods
        mockOptimization.max_contribution
      = mockOptimization.projected_year_end_contribution ∧
    projectedYearEnd formAnnualSalary formYtdContribution p formRemainingPayPeriods
        mockOptimization.max_contribution ≤ mockOptimization.max_contribution ∧
    (projectedYearEnd formAnnualSalary formYtdContribution p formRemainingPayPeriods
        mockOptimization.max_contribution = 23500 ↔ 5404997 / 990000 ≤ p) := by
  refine ⟨rfl, by norm_num [mockOptimization, formYtdContribution], ?_, ?_, ?_⟩
  · norm_num [mockOptimization, projectedYearEnd, formAnnualSalary,
      formYtdContribution, formRemainingPayPeriods, min_def]
  · exact min_le_right _ _
  · unfold projectedYearEnd
    have hmax : mockOptimization.max_contribution = 23500 := rfl
    rw [hmax, min_eq_right_iff]
    norm_num [formAnnualSalary, formYtdContribution, formRemainingPayPeriods]
    constructor <;> intro h <;> linarith

/-- C6: the spec-modelled mark-paid operation succeeds with the updated
record exactly when the quarter is one of 1..4 and the amount is
non-negative, fails with InvalidInput otherwise, and in particular accepts an
amount of exactly 0. -/
theorem mark_paid_ok_iff (quarter : ℤ) (amount : ℚ) (e : QuarterlyEstimate) :
    (mark_paid quarter amount e =
        Except.ok { e with paid := true, paid_amount := some amount } ↔
      (quarter = 1 ∨ quarter = 2 ∨ quarter = 3 ∨ quarter = 4) ∧ 0 ≤ amount) ∧
    (mark_paid quarter amount e = Except.error MarkPaidError.InvalidInput ↔
      ¬ ((quarter = 1 ∨ quarter = 2 ∨ quarter = 3 ∨ quarter = 4) ∧ 0 ≤ amount)) ∧
    mark_paid 3 0 e = Except.ok { e with paid := true, paid_amount := some 0 } := by
  refine ⟨?_, ?_, ?_⟩
  · unfold mark_paid
    by_cases h : (quarter = 1 ∨ quarter = 2 ∨ quarter = 3 ∨ quarter = 4) ∧ 0 ≤ amount
    · simp [h]
    · simp [h]
  · unfold mark_paid
    by_cases h : (quarter = 1 ∨ quarter = 2 ∨ quarter = 3 ∨ quarter = 4) ∧ 0 ≤ amount
    · simp [h]
    · simp [h]
  · unfold mark_paid
    norm_num

/-- C7 counterexample: when withholding exactly equals the projected
liability, refund_or_owed is 0 — non-negative — yet the projection chart's
comparison tab presents it as "Additional Tax Owed" (of 0), not as a refund,
because its branch tests strict inequality. -/
theorem chart_zero_presented_as_owed :
    refund_or_owed 145000 145000 = 0 ∧
    (0 : ℚ) ≤ refund_or_owed 145000 145000 ∧
    chartRefundOrOwed 145000 145000 = ("Additional Tax Owed", 0) ∧
    "Additional Tax Owed" ≠ "Projected Refund" := by
  refine ⟨by norm_num [refund_or_owed], by norm_num [refund_or_owed], ?_, by decide⟩
  norm_num [chartRefundOrOwed]

/-- C7 amended: refund_or_owed = withheld − total_tax; the dashboard card
preserves the sign exactly as claimed (non-negative presented as a refund of
that amount, negative as additional owed of its absolute value), while the
projection chart's comparison tab presents a refund only for strictly
positive values, showing a zero difference as additional tax owed of 0; both
presentations show the absolute value as the amount. -/
theorem refundOrOwed_sign_presentation (w t : ℚ) :
    refund_or_owed w t = w - t ∧
    ((dashboardRefundCard (refund_or_owed w t)).1 = "Projected Refund" ↔
      0 ≤ refund_or_owed w t) ∧
    (dashboardRefundCard (refund_or_owed w t)).2 = |refund_or_owed w t| ∧
    ((chartRefundOrOwed w t).1 = "Projected Refund" ↔ 0 < refund_or_owed w t) ∧
    (chartRefundOrOwed w t).2 = |refund_or_owed w t| := by
  have hs1 : "Additional Owed" ≠ "Projected Refund" := by decide
  have hs2 : "Additional Tax Owed" ≠ "Projected Refund" := by decide
  refine ⟨rfl, ?_, rfl, ?_, ?_⟩
  · by_cases h : 0 ≤ refund_or_owed w t
    · simp [dashboardRefundCard, h]
    · simp [dashboardRefundCard, h, hs1]
  · unfold chartRefundOrOwed refund_or_owed
    by_cases h : t < w
    · simp [h, sub_pos.mpr h]
    · simp [h, hs2]
  · unfold chartRefundOrOwed refund_or_owed
    by_cases h : t < w
    · simp [h, abs_of_pos (sub_pos.mpr h)]
    · simp [h, abs_of_nonpos (sub_nonpos.mpr (not_lt.mp h))]

/-- The shares of a list of vesting events split exactly into the shares of
the past events (vesting before now) and the upcoming ones (vesting at or
after now). -/
theorem sum_shares_past_add_upcoming (events : List RSUVestingEvent) (now : ℤ) :
    ((events.filter fun e => decide (e.vesting_date < now)).map
        fun e => e.shares_vesting).sum
      + ((events.filter fun e => decide (now ≤ e.vesting_date)).map
        fun e => e.shares_vesting).sum
    = (events.map fun e => e.shares_vesting).sum := by
  induction events with
  | nil => simp
  | cons e es ih =>
    by_cases h : e.vesting_date < now
    · simp [List.filter_cons, h, not_le.mpr h]
      omega
    · simp [List.filter_cons, h, not_lt.mp h]
      omega

/-- C8: for every set of vesting events and every value of now, the summary's
pending shares equal granted minus vested shares, and this quantity equals
the sum of shares_vesting over the upcoming events. -/
theorem summarize_pending_invariant (events : List RSUVestingEvent) (now : ℤ) :
    (summarize events now).total_shares_pending
        = (summarize events now).total_shares_granted
          - (summarize events now).total_shares_vested ∧
    (summarize events now).total_shares_pending
        = ((summarize events now).upcoming_vests.map fun e => e.shares_vesting).sum := by
  refine ⟨rfl, ?_⟩
  show (events.map fun e => e.shares_vesting).sum
      - ((events.filter fun e => decide (e.vesting_date < now)).map
          fun e => e.shares_vesting).sum
    = ((events.filter fun e => decide (now ≤ e.vesting_date)).map
        fun e => e.shares_vesting).sum
  have h := sum_shares_past_add_upcoming events now
  omega

/-- C9: the effective rate equals total_tax divided by gross_income for any
nonzero gross income, and equals 0 when gross income is 0, so the projection
computation never divides by zero. -/
theorem effective_rate_safe (total_tax gross_income : ℚ) :
    (gross_income ≠ 0 → effective_rate total_tax gross_income = total_tax / gross_income) ∧
    effective_rate total_tax 0 = 0 := by
  constructor
  · intro h
    simp [effective_rate, h]
  · simp [effective_rate]

/-- C9 witness: the theorem applied at the dashboard's mock projection
figures (total tax 168050, gross income 450000) and at gross income 0. -/
theorem effective_rate_safe_witness :
    ((450000 : ℚ) ≠ 0 ∧ effective_rate 168050 450000 = 168050 / 450000) ∧
    effective_rate 168050 0 = 0 :=
  ⟨⟨by norm_num, (effective_rate_safe 168050 450000).1 (by norm_num)⟩,
    (effective_rate_safe 168050 450000).2⟩

/-- C10: for non-negative salary and contribution percent, the slider's
projection series is non-decreasing in pay period, every point of it is at
most the effective maximum (base limit, plus 7500 when catch-up eligible),
and the projected year-end contribution also stays within that maximum. -/
theorem calculateProjection_monotone_capped
    (annualSalary percent ytd base : ℚ) (catchUp : Bool) (remaining : ℕ)
    (hs : 0 ≤ annualSalary) (hp : 0 ≤ percent) :
    List.Chain' (· ≤ ·)
        (calculateProjection annualSalary percent ytd remaining
          (effectiveMax base catchUp)) ∧
    (∀ x ∈ calculateProjection annualSalary percent ytd remaining
        (effectiveMax base catchUp), x ≤ effectiveMax base catchUp) ∧
    projectedYearEnd annualSalary ytd percent remaining (effectiveMax base catchUp)
        ≤ effectiveMax base catchUp := by
  refine ⟨?_, ?_, min_le_right _ _⟩
  · unfold calculateProjection
    refine (List.chain'_map _).mpr ?_
    refine (List.chain'_range_succ _ _).mpr ?_
    intro m _
    have hc : (0 : ℚ) ≤ annualSalary / 26 * percent / 100 := by positivity
    refine min_le_min (add_le_add_left ?_ _) le_rfl
    have hm : ((m : ℚ)) ≤ ((m + 1 : ℕ) : ℚ) := by
      exact_mod_cast Nat.le_succ m
    exact mul_le_mul_of_nonneg_left hm hc
  · intro x hx
    unfold calculateProjection at hx
    obtain ⟨i, -, rfl⟩ := List.mem_map.mp hx
    exact min_le_right _ _

/-- C10 witness: the theorem applied at the 401(k) page's default inputs
(salary 450000, percent 6, YTD 2711.55, 22 remaining periods, no catch-up). -/
theorem calculateProjection_monotone_capped_witness :
    (0 : ℚ) ≤ 450000 ∧ (0 : ℚ) ≤ 6 ∧
    (List.Chain' (· ≤ ·)
        (calculateProjection 450000 6 2711.55 22 (effectiveMax 23500 false)) ∧
      (∀ x ∈ calculateProjection 450000 6 2711.55 22 (effectiveMax 23500 false),
        x ≤ effectiveMax 23500 false) ∧
      projectedYearEnd 450000 2711.55 6 22 (effectiveMax 23500 false)
        ≤ effectiveMax 23500 false) :=
  ⟨by norm_num, by norm_num,
    calculateProjection_monotone_capped 450000 6 2711.55 23500 false 22
      (by norm_num) (by norm_num)⟩
